import Mathlib

/-!
Verification development for the AI learning-assistant service (src/app.py).
The Python source is shallowly embedded: strings are modelled at the level of
their character lists (mirroring CPython semantics of split, replace, strip,
startswith), the filesystem is an explicit state threaded through the tool
executor together with a trace of I/O effects, and the streaming chat loops
become folds over explicit event lists.
-/

namespace LearnApp

/-- Model of Python list-prefix testing: does the first list start with the second. -/
def listStartsWith : List Char → List Char → Bool
  | _, [] => true
  | [], _ :: _ => false
  | a :: tl, b :: bs => a == b && listStartsWith tl bs

/-- Model of CPython str.split with a non-empty separator: leftmost,
non-overlapping cuts. The fuel argument is the length of the scanned list. -/
def splitFuel (sep : List Char) : Nat → List Char → List Char → List (List Char)
  | 0, cur, l => [cur.reverse ++ l]
  | Nat.succ _, cur, [] => [cur.reverse]
  | Nat.succ fuel, cur, c :: rest =>
    if !sep.isEmpty && listStartsWith (c :: rest) sep then
      cur.reverse :: splitFuel sep fuel [] (List.drop (sep.length - 1) rest)
    else
      splitFuel sep fuel (c :: cur) rest

/-- Python str.split(sep) for a non-empty sep, as used by the source. -/
def pySplit (sep s : String) : List String :=
  (splitFuel sep.toList s.toList.length [] s.toList).map String.mk

/-- Replacement loop of CPython str.replace: leftmost, non-overlapping,
every occurrence.  Fuel is the length of the scanned list. -/
def replaceFuel (old new : List Char) : Nat → List Char → List Char
  | 0, l => l
  | Nat.succ _, [] => []
  | Nat.succ fuel, c :: rest =>
    if !old.isEmpty && listStartsWith (c :: rest) old then
      new ++ replaceFuel old new fuel (List.drop (old.length - 1) rest)
    else
      c :: replaceFuel old new fuel rest

/-- CPython str.replace with an empty pattern inserts the replacement at every
position, including both ends. -/
def interleaveNew (new : List Char) : List Char → List Char
  | [] => new
  | c :: rest => new ++ c :: interleaveNew new rest

/-- Python str.replace(old, new): replaces every occurrence. -/
def pyReplace (s old new : String) : String :=
  if old = "" then String.mk (interleaveNew new.toList s.toList)
  else String.mk (replaceFuel old.toList new.toList s.toList.length s.toList)

/-- Python str.strip(): drop leading and trailing whitespace. -/
def pyStrip (s : String) : String :=
  String.mk (((s.toList.dropWhile Char.isWhitespace).reverse.dropWhile
    Char.isWhitespace).reverse)

/-- Python str.startswith. -/
def pyStartsWith (s pre : String) : Bool :=
  listStartsWith s.toList pre.toList

/-- Python str.endswith. -/
def pyEndsWith (s suf : String) : Bool :=
  listStartsWith s.toList.reverse suf.toList.reverse

/-- Interleave a separator between list elements, as Python sep.join does. -/
def joinChars (sep : List Char) : List (List Char) → List Char
  | [] => []
  | [x] => x
  | x :: y :: rest => x ++ sep ++ joinChars sep (y :: rest)

/-- Python sep.join(parts). -/
def joinWithStr (sep : String) (l : List String) : String :=
  String.mk (joinChars sep.toList (l.map String.toList))

/-- os.path.join(a, b) for POSIX paths, as the source calls it with the
session root on the left. -/
def pyJoin (a b : String) : String :=
  if pyStartsWith b "/" then b
  else if a = "" || pyEndsWith a "/" then a ++ b
  else a ++ "/" ++ b

/-- Component pass of posixpath.normpath for a path with one leading slash:
empty and dot components vanish, a dot-dot pops the previous component and is
dropped at the root. -/
def normAbsComps : List String → List String → List String
  | acc, [] => acc.reverse
  | acc, c :: rest =>
    if c = "" || c = "." then normAbsComps acc rest
    else if c = ".." then
      match acc with
      | [] => normAbsComps [] rest
      | _ :: t => normAbsComps t rest
    else normAbsComps (c :: acc) rest

/-- os.path.normpath restricted to absolute POSIX paths with a single leading
slash, which is the shape the source always passes it (the session root comes
from os.path.abspath). -/
def normpathAbs (s : String) : String :=
  "/" ++ joinWithStr "/" (normAbsComps [] (pySplit "/" s))

/-- os.path.dirname for the absolute paths produced above. -/
def pyDirname (p : String) : String :=
  let comps := (pySplit "/" p).dropLast
  if comps = [""] then "/" else joinWithStr "/" comps

/-- Does the requested relative path contain a dot-dot traversal sequence. -/
def hasDotDot (p : String) : Bool :=
  decide (2 ≤ (pySplit "../" p).length)

/-- Resolution of a requested path against the session root, spec wording:
the resolved path stays inside the root directory (it is the root itself or a
proper descendant of it). -/
def specPathInsideRoot (root p : String) : Bool :=
  let full := normpathAbs (pyJoin root p)
  full == root || pyStartsWith full (root ++ "/")

/-- A tool-call descriptor attached to an assistant message (id, function
name, serialized arguments), as stored in the message log. -/
structure ToolCallRec where
  tcId : String
  fnName : String
  fnArgs : String
deriving DecidableEq, Repr

/-- One entry of a session message log (dataclass Message / the dict records
appended by teaching_chat). -/
structure Msg where
  role : String
  content : String
  tool_calls : List ToolCallRec := []
  tool_call_id : String := ""
deriving DecidableEq, Repr

/-- dataclass Workspace: a session with its phase, token bookkeeping, message
log and compressed-context summary. -/
structure Workspace where
  id : String
  theme : String
  created_at : String
  path : String
  current_phase : String := "init"
  token_count : Nat := 0
  token_threshold : Nat := 0
  messages : List Msg := []
  compressed_context : String := ""
deriving DecidableEq, Repr

/-- The workspace_state.json record written by save_workspace. -/
structure StateRec where
  current_phase : String
  token_count : Nat
  token_threshold : Nat
  compressed_context : String
deriving DecidableEq, Repr

/-- The persisted artifacts of one session directory: history.json,
workspace_state.json, study_plan.md, agents.md. -/
structure Store where
  history : Option (List Msg) := none
  stateRec : Option StateRec := none
  studyPlan : Option String := none
  agents : Option String := none
deriving DecidableEq, Repr

/-- WorkspaceManager.save_workspace: overwrite history.json with the message
log and workspace_state.json with phase, token counts and compressed context. -/
def save_workspace (ws : Workspace) (st : Store) : Store :=
  { st with
    history := some ws.messages,
    stateRec := some {
      current_phase := ws.current_phase,
      token_count := ws.token_count,
      token_threshold := ws.token_threshold,
      compressed_context := ws.compressed_context } }

/-- The theme extraction of _load_workspace_from_disk: first line of agents.md
matching the pattern Theme: value, with the id as fallback. -/
def extractTheme (agents : Option String) (fallb : String) : String :=
  match agents with
  | none => fallb
  | some content =>
    match (pySplit "\n" content).filterMap (fun l =>
        if pyStartsWith l "Theme:" then some (pyStrip (String.mk (l.toList.drop 6)))
        else none) with
    | [] => fallb
    | t :: _ => t

/-- WorkspaceManager._load_workspace_from_disk: rebuild a Workspace from the
persisted artifacts, with the documented defaults when a record is missing. -/
def load_workspace_from_disk (workspace_id rootPath createdAt : String)
    (defaultThreshold : Nat) (st : Store) : Workspace :=
  let theme := extractTheme st.agents workspace_id
  let msgs := st.history.getD []
  match st.stateRec with
  | some s =>
    { id := workspace_id, theme := theme, created_at := createdAt,
      path := pyJoin rootPath workspace_id,
      current_phase := s.current_phase, token_count := s.token_count,
      token_threshold := s.token_threshold, messages := msgs,
      compressed_context := s.compressed_context }
  | none =>
    { id := workspace_id, theme := theme, created_at := createdAt,
      path := pyJoin rootPath workspace_id,
      current_phase := "inquiry", token_count := 0,
      token_threshold := defaultThreshold, messages := msgs,
      compressed_context := "" }

/-- The workspace directory tree: file contents keyed by absolute path, plus
the set of created directories. -/
structure FileSys where
  files : List (String × String) := []
  dirs : List String := []
deriving DecidableEq, Repr

/-- Content of the file at a path, if a file exists there. -/
def fsLookup (fs : FileSys) (p : String) : Option String :=
  (fs.files.find? (fun kv => kv.1 == p)).map (fun kv => kv.2)

/-- Overwrite or create the file at a path. -/
def fsWrite (fs : FileSys) (p c : String) : FileSys :=
  { fs with files := (p, c) :: fs.files.filter (fun kv => kv.1 != p) }

/-- Remove the file at a path. -/
def fsDelete (fs : FileSys) (p : String) : FileSys :=
  { fs with files := fs.files.filter (fun kv => kv.1 != p) }

/-- Record a directory (os.makedirs with exist_ok). -/
def fsMkdir (fs : FileSys) (p : String) : FileSys :=
  { fs with dirs := p :: fs.dirs }

/-- os.path.exists against the modelled tree: a file or a directory. -/
def fsExists (fs : FileSys) (p : String) : Bool :=
  (fsLookup fs p).isSome || fs.dirs.contains p

/-- An observable I/O side effect of the tool executor. -/
inductive Effect where
  | readF (p : String)
  | writeF (p : String) (content : String)
  | deleteF (p : String)
  | mkdirF (p : String)
  | searchF (query : String)
deriving DecidableEq, Repr

/-- The argument dictionary handed to a tool, with the fields the tools read.
A missing key reads as the Python falsy default, like params.get does. -/
structure ToolParams where
  summary : String := ""
  action : String := ""
  path : String := ""
  content : String := ""
  edit_instruction : String := ""
  query : String := ""
  question : String := ""
  exType : String := "choice"
  options : List String := []
  blanks : List String := []
  correct_answers : List String := []
deriving DecidableEq, Repr

/-- The result dictionary a tool returns, with the keys the source uses. -/
structure ExecResult where
  success : Bool := false
  error : Option String := none
  hint : Option String := none
  message : String := ""
  content : String := ""
  summary : String := ""
  inquiry_complete : Bool := false
  exercise_id : String := ""
deriving DecidableEq, Repr

/-- A structured error result with its hint, as every validation failure of
the tool executor produces. -/
def errRes (e h : String) : ExecResult :=
  { success := false, error := some e, hint := some h }

/-- ToolExecutor._end_inquiry: a pure signal that echoes the provided summary
and marks the inquiry as complete; it touches no state. -/
def endInquiryTool (params : ToolParams) : ExecResult :=
  { success := true,
    message := "询问阶段已结束，可以生成学习计划",
    summary := params.summary,
    inquiry_complete := true }

/-- The configured search provider and credential. -/
structure SearchConfig where
  provider : String := ""
  api_key : String := ""
deriving DecidableEq, Repr

/-- ToolExecutor._web_search: unconfigured search degrades to an error result;
otherwise the provider is queried over the network (modelled as the search
effect; the provider response normalization is network-bound and outside the
embedding). -/
def webSearchTool (cfg : SearchConfig) (params : ToolParams) :
    ExecResult × List Effect :=
  if cfg.provider = "" || cfg.api_key = "" then
    ({ success := false, error := some "搜索功能未配置" }, [])
  else
    ({ success := true }, [Effect.searchF params.query])

/-- ToolExecutor._generate_exercise: validate the type-specific required
fields, then persist the exercise artifact under a time-based id (the JSON
rendering of the artifact is abbreviated to its question text). -/
def generateExerciseTool (now : Nat) (params : ToolParams) (rootPath : String)
    (fs : FileSys) : ExecResult × FileSys × List Effect :=
  if params.question = "" then
    (errRes "题目内容不能为空" "请提供完整的题目内容，包括question、type等参数", fs, [])
  else if params.exType == "choice" && decide (params.options.length < 2) then
    (errRes "选择题必须提供至少2个选项" "请提供完整的选项数组", fs, [])
  else if params.exType == "choice" && params.correct_answers.isEmpty then
    (errRes "选择题必须提供正确答案" "请提供correct_answers参数", fs, [])
  else if params.exType == "fill_blank" && params.blanks.isEmpty then
    (errRes "填空题必须提供空白位置" "请提供blanks参数", fs, [])
  else if params.exType == "fill_blank" && params.correct_answers.isEmpty then
    (errRes "填空题必须提供正确答案" "请提供correct_answers参数", fs, [])
  else
    let exId := "ex_" ++ toString now
    let exPath := pyJoin (pyJoin rootPath "exercises") (exId ++ ".json")
    ({ success := true, exercise_id := exId },
     fsWrite fs exPath params.question,
     [Effect.writeF exPath params.question])

/-- The read branch of _file_system. -/
def readAction (p full : String) (fs : FileSys) :
    ExecResult × FileSys × List Effect :=
  if !fsExists fs full then
    (errRes ("文件不存在: " ++ p) "请检查路径是否正确", fs, [])
  else
    match fsLookup fs full with
    | some c => ({ success := true, content := c }, fs, [Effect.readF full])
    | none => (errRes "IsADirectoryError" "请检查参数格式是否正确", fs, [])

/-- The write branch of _file_system: makedirs on the parent, then write. -/
def writeAction (p full content : String) (fs : FileSys) :
    ExecResult × FileSys × List Effect :=
  let d := pyDirname full
  ({ success := true, message := "文件已写入: " ++ p },
   fsWrite (fsMkdir fs d) full content,
   [Effect.mkdirF d, Effect.writeF full content])

/-- The edit branch of _file_system: read the file, split the instruction on
the arrow, strip both sides, replace every occurrence, write back; a missing
arrow raises IndexError which is returned as the format-hint error. -/
def editAction (p full instr : String) (fs : FileSys) :
    ExecResult × FileSys × List Effect :=
  if !fsExists fs full then
    (errRes ("文件不存在: " ++ p) "请检查路径是否正确", fs, [])
  else
    match fsLookup fs full with
    | none => (errRes "IsADirectoryError" "请检查参数格式是否正确", fs, [])
    | some original =>
      match pySplit "->" instr with
      | o :: n :: _ =>
        let old_text := pyStrip o
        let new_text := pyStrip n
        let modified := pyReplace original old_text new_text
        ({ success := true, message := "文件已编辑: " ++ p },
         fsWrite fs full modified,
         [Effect.readF full, Effect.writeF full modified])
      | _ =>
        (errRes "edit_instruction格式错误" "格式应为：原文本->新文本", fs,
         [Effect.readF full])

/-- The delete branch of _file_system. -/
def deleteAction (p full : String) (fs : FileSys) :
    ExecResult × FileSys × List Effect :=
  if (fsLookup fs full).isSome then
    ({ success := true, message := "文件已删除: " ++ p }, fsDelete fs full,
     [Effect.deleteF full])
  else if fs.dirs.contains full then
    (errRes "IsADirectoryError" "请检查参数格式是否正确", fs, [])
  else
    (errRes ("文件不存在: " ++ p) "请检查路径是否正确", fs, [])

/-- The mkdir branch of _file_system. -/
def mkdirAction (p full : String) (fs : FileSys) :
    ExecResult × FileSys × List Effect :=
  ({ success := true, message := "目录已创建: " ++ p }, fsMkdir fs full,
   [Effect.mkdirF full])

/-- ToolExecutor._file_system: parameter validation, the normpath plus
startswith containment check of the source, then the per-action branch. -/
def fileSystemTool (params : ToolParams) (rootPath : String) (fs : FileSys) :
    ExecResult × FileSys × List Effect :=
  if params.action = "" then
    (errRes "缺少必要参数: action" "请提供action参数，必须是read/write/edit/delete/mkdir之一",
     fs, [])
  else if params.path = "" then
    (errRes "缺少必要参数: path" "请提供path参数，指定文件或目录路径", fs, [])
  else if !(params.action == "read" || params.action == "write" ||
      params.action == "edit" || params.action == "delete" ||
      params.action == "mkdir") then
    (errRes ("无效的action: " ++ params.action)
      "action必须是以下之一: read, write, edit, delete, mkdir", fs, [])
  else if params.action == "write" && params.content == "" then
    (errRes "write操作需要content参数" "请提供content参数，包含要写入的内容", fs, [])
  else if params.action == "edit" && params.edit_instruction == "" then
    (errRes "edit操作需要edit_instruction参数" "请提供edit_instruction参数，格式：原文本->新文本",
     fs, [])
  else
    let full := normpathAbs (pyJoin rootPath params.path)
    if !pyStartsWith full rootPath then
      (errRes "非法路径" "路径必须在工作区内", fs, [])
    else if params.action == "read" then readAction params.path full fs
    else if params.action == "write" then writeAction params.path full params.content fs
    else if params.action == "edit" then editAction params.path full params.edit_instruction fs
    else if params.action == "delete" then deleteAction params.path full fs
    else mkdirAction params.path full fs

/-- ToolExecutor.execute: dispatch by tool name, with the unknown-name error. -/
def executeTool (cfg : SearchConfig) (now : Nat) (toolName : String)
    (params : ToolParams) (rootPath : String) (fs : FileSys) :
    ExecResult × FileSys × List Effect :=
  if toolName == "generate_exercise" then generateExerciseTool now params rootPath fs
  else if toolName == "web_search" then
    let r := webSearchTool cfg params
    (r.1, fs, r.2)
  else if toolName == "file_system" then fileSystemTool params rootPath fs
  else if toolName == "end_inquiry" then (endInquiryTool params, fs, [])
  else ({ success := false, error := some ("未知工具: " ++ toolName) }, fs, [])

/-- The serialized arguments of a tool-call fragment, as seen by json.loads:
either a payload that parses to an argument dictionary or a malformed string. -/
inductive ArgPayload where
  | okArgs (p : ToolParams)
  | badArgs (raw : String)
deriving DecidableEq, Repr

/-- The json.loads fallback of the streaming loops: malformed arguments become
the empty dictionary. -/
def parseArgs : ArgPayload → ToolParams
  | ArgPayload.okArgs p => p
  | ArgPayload.badArgs _ => {}

/-- The function part of a streamed tool-call fragment; each key may be absent. -/
structure FuncFrag where
  name : Option String := none
  arguments : Option ArgPayload := none
deriving DecidableEq, Repr

/-- One element of a delta.tool_calls list. -/
structure ToolFrag where
  tcId : Option String := none
  func : Option FuncFrag := none
deriving DecidableEq, Repr

/-- One server-sent event of the streaming chat completion: an error object
or a delta carrying tool-call fragments and content. -/
inductive Chunk where
  | errorC (msg : String)
  | delta (toolCalls : List ToolFrag) (content : String)
deriving DecidableEq, Repr

/-- The mutable locals of the teaching_chat streaming loop. -/
structure ScanState where
  fullResponse : String := ""
  toolCallId : Option String := none
  toolName : Option String := none
  toolArgs : ToolParams := {}
deriving DecidableEq, Repr

/-- Processing of one tool-call fragment in teaching_chat: each present key
overwrites the corresponding local. -/
def applyFrag (st : ScanState) (tc : ToolFrag) : ScanState :=
  let st1 := match tc.tcId with
    | some i => { st with toolCallId := some i }
    | none => st
  match tc.func with
  | none => st1
  | some f =>
    let st2 := match f.name with
      | some n => { st1 with toolName := some n }
      | none => st1
    match f.arguments with
    | some a => { st2 with toolArgs := parseArgs a }
    | none => st2

/-- Processing of one delta in teaching_chat: fold the tool-call fragments,
then append the content. -/
def applyChunk (st : ScanState) (tcs : List ToolFrag) (content : String) :
    ScanState :=
  let st1 := tcs.foldl applyFrag st
  { st1 with fullResponse := st1.fullResponse ++ content }

/-- The teaching_chat streaming loop over the event list; the Bool records an
early return on an error event. -/
def scanChunks : ScanState → List Chunk → ScanState × Bool
  | st, [] => (st, false)
  | st, Chunk.errorC _ :: _ => (st, true)
  | st, Chunk.delta tcs content :: rest => scanChunks (applyChunk st tcs content) rest

/-- The tool call teaching_chat executes after the stream is drained: present
only when both the tracked name and id are truthy and the stream did not error
out; at most one call is ever executed. -/
def executedToolCall (chunks : List Chunk) : Option (String × String × ToolParams) :=
  let r := scanChunks {} chunks
  if r.2 then none
  else
    match r.1.toolName, r.1.toolCallId with
    | some n, some i => if n ≠ "" ∧ i ≠ "" then some (n, i, r.1.toolArgs) else none
    | _, _ => none

/-- A fragment carrying a complete tool call: id, name and well-formed
arguments all in one delta. -/
def completeFrag (i n : String) (p : ToolParams) : ToolFrag :=
  { tcId := some i,
    func := some { name := some n, arguments := some (ArgPayload.okArgs p) } }

/-- A delta event holding exactly one complete tool call and no content. -/
def toDelta (x : String × String × ToolParams) : Chunk :=
  Chunk.delta [completeFrag x.1 x.2.1 x.2.2] ""

/-- A JSON-schema tool offered to the model. -/
structure ToolSpec where
  fnName : String
  description : String
deriving DecidableEq, Repr

/-- The tool list inquiry_chat passes to the model: only end_inquiry. -/
def inquiry_tools : List ToolSpec :=
  [{ fnName := "end_inquiry",
     description := "结束需求询问阶段，表示已收集足够信息可以生成学习计划" }]

/-- The tool list teaching_chat passes to the model. -/
def teaching_tools : List ToolSpec :=
  [{ fnName := "generate_exercise",
     description := "Generate a practice exercise for the student" },
   { fnName := "web_search", description := "Search the web for information" },
   { fnName := "file_system",
     description := "Read, write, or edit files in the workspace" }]

/-- The inquiry_chat streaming loop: buffer every tool-call fragment; an error
event makes the generator return before the dispatch loop runs. -/
def inquiryCollect : List Chunk → Option (List ToolFrag)
  | [] => some []
  | Chunk.errorC _ :: _ => none
  | Chunk.delta tcs _ :: rest => (inquiryCollect rest).map (fun b => tcs ++ b)

/-- The post-stream dispatch loop of inquiry_chat: a buffered fragment whose
function name is end_inquiry is executed; a fragment with a function but no
name raises KeyError, aborting the rest of the loop. -/
def dispatchLoop : List ToolFrag → List String
  | [] => []
  | tc :: rest =>
    match tc.func with
    | none => dispatchLoop rest
    | some f =>
      match f.name with
      | none => []
      | some n =>
        if n = "end_inquiry" then "end_inquiry" :: dispatchLoop rest
        else dispatchLoop rest

/-- The tool names an inquiry turn ever hands to the executor, for a given
event stream. -/
def inquiryExecutedTools (chunks : List Chunk) : List String :=
  match inquiryCollect chunks with
  | none => []
  | some buffer => dispatchLoop buffer

/-- One event of the non-streamed chat completion consumed by
generate_study_plan: an error object, a response with choices, or a response
without them. -/
inductive PlanChunk where
  | errorC (msg : String)
  | choicesC (content : String)
  | noChoices
deriving DecidableEq, Repr

/-- The content generate_study_plan extracts from one event: only events with
a choices array contribute. -/
def planContent : PlanChunk → Option String
  | PlanChunk.choicesC c => some c
  | _ => none

/-- The JSON body generate_study_plan returns. -/
structure PlanResult where
  success : Bool
  study_plan : String
deriving DecidableEq, Repr

/-- Route generate_study_plan, from the model call onward: join the content of
every choices-bearing event, persist it as study_plan.md, set the phase to
teaching, save the workspace, and answer success. -/
def generate_study_plan (ws : Workspace) (st : Store) (chunks : List PlanChunk) :
    Workspace × Store × PlanResult :=
  let response_chunks := chunks.filterMap planContent
  let study_plan := String.join response_chunks
  let st1 := { st with studyPlan := some study_plan }
  let ws1 := { ws with current_phase := "teaching" }
  (ws1, save_workspace ws1 st1, { success := true, study_plan := study_plan })

/-- The token estimate of teaching_chat: sum over all messages of the content
length integer-divided by four. -/
def recompute_token_count (msgs : List Msg) : Nat :=
  (msgs.map (fun m => m.content.length / 4)).sum

/-- The token-count update performed after every teaching turn. -/
def updateTokenCount (ws : Workspace) : Workspace :=
  { ws with token_count := recompute_token_count ws.messages }

/-- The outcome of the compression model call issued by
LLMService.compress_context. -/
inductive CompressResponse where
  | okResp (content : String)
  | httpError (status : Nat)
  | exn (msg : String)
deriving DecidableEq, Repr

/-- Whether the compression model call failed (non-200 status or transport
exception). -/
def CompressResponse.isFailure : CompressResponse → Bool
  | CompressResponse.okResp _ => false
  | _ => true

/-- LLMService.compress_context, from the model response onward: the summary
text on success, a fixed sentinel on a non-200 status, another fixed sentinel
on a transport exception. -/
def compress_context (resp : CompressResponse) : String :=
  match resp with
  | CompressResponse.okResp content => content
  | CompressResponse.httpError _ => "[Context compression failed - using recent messages only]"
  | CompressResponse.exn _ => "[Context compression error]"

/-- The compression trigger of teaching_chat: fire only when the token count
exceeds the threshold and no compressed context exists yet, and store whatever
compress_context returned.  The Bool records whether compression was invoked. -/
def compressionStep (ws : Workspace) (resp : CompressResponse) :
    Workspace × Bool :=
  if ws.token_count > ws.token_threshold ∧ ws.compressed_context = "" then
    ({ ws with compressed_context := compress_context resp }, true)
  else
    (ws, false)

/-- The lesson-context block of teaching_chat: empty unless a compressed
context exists, in which case the summary follows the fixed header verbatim. -/
def buildLessonContext (ws : Workspace) : String :=
  if ws.compressed_context = "" then ""
  else "[LESSON_CONTEXT - Compressed]\n" ++ ws.compressed_context

/-- The named slots teaching_chat fills in the phase-3 system prompt. -/
def teachingPromptSlots (ws : Workspace) (maxContext : Nat)
    (studyPlan agentState recentExchanges fileTree : String) :
    List (String × String) :=
  [("max_context", toString maxContext),
   ("token_count", toString ws.token_count),
   ("token_threshold", toString ws.token_threshold),
   ("study_plan", studyPlan),
   ("agent_state", agentState),
   ("lesson_context", buildLessonContext ws),
   ("recent_exchanges", recentExchanges),
   ("file_tree", fileTree)]

/-- PromptManager.get_teaching_prompt: replace each brace-delimited placeholder
with the corresponding slot value. -/
def get_teaching_prompt (template : String) (slots : List (String × String)) :
    String :=
  slots.foldl (fun acc kv => pyReplace acc ("\x7b" ++ kv.1 ++ "\x7d") kv.2) template

/-- A session sitting in the inquiry phase, the concrete input of the
plan-generation counterexample. -/
def wsInquiryDemo : Workspace :=
  { id := "w1", theme := "math", created_at := "2024-01-01", path := "/ws/w1",
    current_phase := "inquiry", token_count := 0, token_threshold := 102400 }

/-- A teaching session whose token count already exceeds its threshold and
that has no compressed context yet. -/
def wsOverBudget : Workspace :=
  { id := "w2", theme := "math", created_at := "2024-01-01", path := "/ws/w2",
    current_phase := "teaching", token_count := 100, token_threshold := 10 }

/-- A workspace tree holding one note file, input of the edit examples. -/
def demoFs : FileSys :=
  { files := [("/ws/w1/notes/a.md", "foo baz foo")] }

/-- An inquiry stream in which the model emits one complete end_inquiry call. -/
def demoInquiryChunks : List Chunk :=
  [Chunk.delta
    [{ tcId := some "call_1",
       func := some { name := some "end_inquiry",
                      arguments := some (ArgPayload.okArgs { summary := "目标明确" }) } }]
    ""]

/-- A teaching stream in which the model emits two independent, complete tool
calls: first a file_system read, then a web_search. -/
def twoToolCallStream : List Chunk :=
  [toDelta ("call_a", "file_system", { action := "read", path := "notes/a.md" }),
   toDelta ("call_b", "web_search", { query := "linear algebra" })]

/-- Claim C1, evaluated at the failing input: the spec demands that every
file_system request whose relative path contains a dot-dot sequence resolving
outside the session root is rejected with no I/O, but the source checks
containment with a bare string startswith after normpath, so a path that
resolves to a sibling directory whose name extends the root as a string slips
through.  With session root /ws/sess1, the write request for ../sess1x/a.txt
contains a dot-dot sequence and resolves outside the root, yet it succeeds and
performs mkdir and write I/O outside the session root. -/
theorem path_containment_violated :
    hasDotDot "../sess1x/a.txt" = true ∧
    specPathInsideRoot "/ws/sess1" "../sess1x/a.txt" = false ∧
    (fileSystemTool { action := "write", path := "../sess1x/a.txt", content := "x" }
      "/ws/sess1" {}).1.success = true ∧
    (fileSystemTool { action := "write", path := "../sess1x/a.txt", content := "x" }
      "/ws/sess1" {}).2.2 =
      [Effect.mkdirF "/ws/sess1x", Effect.writeF "/ws/sess1x/a.txt" "x"] := by
  decide

/-- Claim C2, counterexample: a plan-generation model call that fails with an
error event still transitions the concrete inquiry session to teaching,
persists an empty study-plan artifact, and reports success to the caller. -/
theorem plan_failure_transitions_anyway :
    (generate_study_plan wsInquiryDemo {} [PlanChunk.errorC "LLM API错误: 500"]).1.current_phase
        = "teaching" ∧
    (generate_study_plan wsInquiryDemo {} [PlanChunk.errorC "LLM API错误: 500"]).2.2.success
        = true ∧
    (generate_study_plan wsInquiryDemo {} [PlanChunk.errorC "LLM API错误: 500"]).2.1.studyPlan
        = some "" := by
  decide

/-- Claim C2, amended: when the plan-generation model call fails (the events
carry no choices content), the route joins the empty content list into an
empty plan, persists the empty study-plan artifact, unconditionally
transitions the session to teaching, saves that state, and returns success;
no error is surfaced and the session does not remain in inquiry. -/
theorem plan_failure_behavior (ws : Workspace) (st : Store)
    (chunks : List PlanChunk) (h : chunks.filterMap planContent = []) :
    (generate_study_plan ws st chunks).1.current_phase = "teaching" ∧
    (generate_study_plan ws st chunks).2.2.success = true ∧
    (generate_study_plan ws st chunks).2.2.study_plan = "" ∧
    (generate_study_plan ws st chunks).2.1.studyPlan = some "" ∧
    (generate_study_plan ws st chunks).2.1.stateRec = some
      { current_phase := "teaching", token_count := ws.token_count,
        token_threshold := ws.token_threshold,
        compressed_context := ws.compressed_context } := by
  simp [generate_study_plan, save_workspace, h, String.join]

/-- Witness for the amended claim C2 at a concrete failing stream. -/
theorem plan_failure_behavior_witness :
    ([PlanChunk.errorC "LLM API错误: 500"].filterMap planContent = []) ∧
    (generate_study_plan wsInquiryDemo {} [PlanChunk.errorC "LLM API错误: 500"]).2.2.study_plan
        = "" :=
  ⟨by decide,
   (plan_failure_behavior wsInquiryDemo {} [PlanChunk.errorC "LLM API错误: 500"]
     (by decide)).2.2.1⟩

/-- Claim C6: the recomputed token usage equals the sum over all messages of
the content length integer-divided by four, the recomputation is idempotent,
and the result is independent of any previously stored count. -/
theorem token_recompute_idempotent (ws : Workspace) :
    (updateTokenCount ws).token_count =
      (ws.messages.map (fun m => m.content.length / 4)).sum ∧
    updateTokenCount (updateTokenCount ws) = updateTokenCount ws ∧
    (∀ n : Nat, updateTokenCount { ws with token_count := n } = updateTokenCount ws) :=
  ⟨rfl, rfl, fun _ => rfl⟩

/-- Claim C7: saving the session state and message log and reloading the
session by id reconstructs the same phase, token count, token threshold and
message list. -/
theorem save_load_round_trip (ws : Workspace) (st : Store)
    (rootPath createdAt : String) (defaultThreshold : Nat) :
    (load_workspace_from_disk ws.id rootPath createdAt defaultThreshold
        (save_workspace ws st)).current_phase = ws.current_phase ∧
    (load_workspace_from_disk ws.id rootPath createdAt defaultThreshold
        (save_workspace ws st)).token_count = ws.token_count ∧
    (load_workspace_from_disk ws.id rootPath createdAt defaultThreshold
        (save_workspace ws st)).token_threshold = ws.token_threshold ∧
    (load_workspace_from_disk ws.id rootPath createdAt defaultThreshold
        (save_workspace ws st)).messages = ws.messages :=
  ⟨rfl, rfl, rfl, rfl⟩

/-- Folding the teaching scan over a stream of complete tool-call deltas ends
with the locals of the last call in the stream, and no error return. -/
theorem scanChunks_snoc_complete (l : List (String × String × ToolParams))
    (c : String × String × ToolParams) (st : ScanState) :
    (scanChunks st ((l ++ [c]).map toDelta)).1.toolName = some c.2.1 ∧
    (scanChunks st ((l ++ [c]).map toDelta)).1.toolCallId = some c.1 ∧
    (scanChunks st ((l ++ [c]).map toDelta)).1.toolArgs = c.2.2 ∧
    (scanChunks st ((l ++ [c]).map toDelta)).2 = false := by
  induction l generalizing st with
  | nil => exact ⟨rfl, rfl, rfl, rfl⟩
  | cons a tl ih =>
    simpa only [List.cons_append, List.map_cons, toDelta, scanChunks] using
      ih (applyChunk st [completeFrag a.1 a.2.1 a.2.2] "")

/-- Every tool name the inquiry dispatch loop executes is end_inquiry. -/
theorem dispatchLoop_mem (buffer : List ToolFrag) :
    ∀ t ∈ dispatchLoop buffer, t = "end_inquiry" := by
  induction buffer with
  | nil => intro t ht; simp [dispatchLoop] at ht
  | cons tc rest ih =>
    intro t ht
    obtain ⟨tcid, func⟩ := tc
    cases func with
    | none =>
      simp only [dispatchLoop] at ht
      exact ih t ht
    | some f =>
      cases hnm : f.name with
      | none =>
        simp only [dispatchLoop, hnm] at ht
        exact absurd ht (by simp)
      | some nm =>
        by_cases he : nm = "end_inquiry"
        · subst he
          simp only [dispatchLoop, hnm, if_pos] at ht
          rcases List.mem_cons.mp ht with h | h
          · exact h
          · exact ih t h
        · simp only [dispatchLoop, hnm, if_neg he] at ht
          exact ih t ht

/-- Looking up the path just written returns the written content. -/
theorem fsLookup_fsWrite_self (fs : FileSys) (p c : String) :
    fsLookup (fsWrite fs p c) p = some c := by
  simp [fsLookup, fsWrite, List.find?]

/-- Claim C3, counterexample: with two independent complete tool calls in one
teaching stream, the executed call is the second one (web_search with id
call_b), not the first materialized one (file_system with id call_a). -/
theorem second_tool_call_wins :
    executedToolCall twoToolCallStream =
      some ("web_search", "call_b", { query := "linear algebra" }) ∧
    (executedToolCall twoToolCallStream).map (fun x => x.1) ≠ some "file_system" := by
  decide

/-- Claim C3, amended: exactly one tool call is executed per teaching turn
(the scan yields at most one call), and it is the last fully materialized one;
every earlier tool call in the stream is overwritten, not executed. -/
theorem teaching_turn_executes_last_call
    (earlier : List (String × String × ToolParams)) (i n : String)
    (p : ToolParams) (hi : i ≠ "") (hn : n ≠ "") :
    executedToolCall ((earlier ++ [(i, n, p)]).map toDelta) = some (n, i, p) := by
  obtain ⟨h1, h2, h3, h4⟩ := scanChunks_snoc_complete earlier (i, n, p) {}
  simp only [executedToolCall, h1, h2, h3, h4]
  simp [hn, hi]

/-- Witness for the amended claim C3: the concrete two-call stream executes
the second call. -/
theorem teaching_turn_executes_last_call_witness :
    (("call_b" : String) ≠ "" ∧ ("web_search" : String) ≠ "") ∧
    executedToolCall (([("call_a", "file_system",
        ({ action := "read", path := "notes/a.md" } : ToolParams))] ++
        [("call_b", "web_search", ({ query := "linear algebra" } : ToolParams))]).map
        toDelta) =
      some ("web_search", "call_b", { query := "linear algebra" }) :=
  ⟨⟨by decide, by decide⟩,
   teaching_turn_executes_last_call
     [("call_a", "file_system", { action := "read", path := "notes/a.md" })]
     "call_b" "web_search" { query := "linear algebra" } (by decide) (by decide)⟩

/-- Claim C4, counterexample: a compression attempt that succeeds with empty
model content stores the empty string, so the trigger condition is armed again
and compression is invoked a second time on the same session. -/
theorem compression_fires_twice :
    compress_context (CompressResponse.okResp "") = "" ∧
    (compressionStep wsOverBudget (CompressResponse.okResp "")).2 = true ∧
    (compressionStep (compressionStep wsOverBudget (CompressResponse.okResp "")).1
      (CompressResponse.okResp "retry")).2 = true := by
  decide

/-- Claim C4, amended: compression is triggered only when usage exceeds the
threshold and the summary is empty; every failed attempt stores a non-empty
sentinel; and after any attempt that stores a non-empty summary the trigger is
permanently false, so compression is invoked at most once.  Only a successful
attempt whose model content is empty re-arms the trigger. -/
theorem compression_at_most_once_of_nonempty (ws : Workspace)
    (resp : CompressResponse) (h : compress_context resp ≠ "") :
    ((compressionStep ws resp).2 = true →
      ws.token_count > ws.token_threshold ∧ ws.compressed_context = "" ∧
      ∀ (resp2 : CompressResponse) (newCount : Nat),
        (compressionStep
          { (compressionStep ws resp).1 with token_count := newCount } resp2).2 =
          false) ∧
    (∀ r : CompressResponse, r.isFailure = true → compress_context r ≠ "") := by
  constructor
  · intro hfired
    unfold compressionStep at hfired
    by_cases hc : ws.token_count > ws.token_threshold ∧ ws.compressed_context = ""
    · refine ⟨hc.1, hc.2, ?_⟩
      intro resp2 newCount
      unfold compressionStep
      rw [if_pos hc]
      rw [if_neg]
      intro hcon
      exact h hcon.2
    · rw [if_neg hc] at hfired
      exact absurd hfired (by simp)
  · intro r hr
    cases r with
    | okResp c => simp [CompressResponse.isFailure] at hr
    | httpError s => simp [compress_context]
    | exn m => simp [compress_context]

/-- Witness for the amended claim C4: a failed attempt stores a non-empty
sentinel and the over-budget session cannot fire a second compression. -/
theorem compression_at_most_once_witness :
    compress_context (CompressResponse.exn "timeout") ≠ "" ∧
    (compressionStep
      { (compressionStep wsOverBudget (CompressResponse.exn "timeout")).1 with
        token_count := 999 } (CompressResponse.okResp "later")).2 = false := by
  have h := compression_at_most_once_of_nonempty wsOverBudget
    (CompressResponse.exn "timeout") (by decide)
  exact ⟨by decide, (h.1 (by decide)).2.2 (CompressResponse.okResp "later") 999⟩

/-- Claim C5: the inquiry phase offers exactly one tool, end_inquiry; for
every model stream, every tool call the inquiry turn hands to the executor is
named end_inquiry; and executing end_inquiry leaves the filesystem untouched,
produces no I/O or search effect, and only echoes the provided summary. -/
theorem inquiry_phase_tool_isolation :
    inquiry_tools.length = 1 ∧
    inquiry_tools.map ToolSpec.fnName = ["end_inquiry"] ∧
    (∀ chunks : List Chunk, ∀ t ∈ inquiryExecutedTools chunks, t = "end_inquiry") ∧
    (∀ (cfg : SearchConfig) (now : Nat) (params : ToolParams) (rootPath : String)
        (fs : FileSys),
      executeTool cfg now "end_inquiry" params rootPath fs =
        (endInquiryTool params, fs, []) ∧
      (endInquiryTool params).summary = params.summary ∧
      (endInquiryTool params).success = true) := by
  refine ⟨rfl, rfl, ?_, ?_⟩
  · intro chunks t ht
    unfold inquiryExecutedTools at ht
    cases h : inquiryCollect chunks with
    | none => rw [h] at ht; simp at ht
    | some b => rw [h] at ht; exact dispatchLoop_mem b t ht
  · intro cfg now params rootPath fs
    exact ⟨rfl, rfl, rfl⟩

/-- Witness for claim C5: a concrete inquiry stream with one end_inquiry call. -/
theorem inquiry_phase_tool_isolation_witness :
    "end_inquiry" ∈ inquiryExecutedTools demoInquiryChunks ∧
    "end_inquiry" = "end_inquiry" :=
  ⟨by decide,
   inquiry_phase_tool_isolation.2.2.1 demoInquiryChunks "end_inquiry" (by decide)⟩

/-- Claim C8: an edit whose instruction lacks the arrow separator, applied to
an existing file on a contained path, returns the format-hint error, leaves
the filesystem unchanged, and performs no write: only the preceding read
happens. -/
theorem malformed_edit_rejected (rootPath p instr orig : String) (fs : FileSys)
    (hinstr : instr ≠ "") (hsplit : pySplit "->" instr = [instr]) (hp : p ≠ "")
    (hsafe : pyStartsWith (normpathAbs (pyJoin rootPath p)) rootPath = true)
    (hfile : fsLookup fs (normpathAbs (pyJoin rootPath p)) = some orig) :
    (fileSystemTool { action := "edit", path := p, edit_instruction := instr }
        rootPath fs).1 =
      errRes "edit_instruction格式错误" "格式应为：原文本->新文本" ∧
    (fileSystemTool { action := "edit", path := p, edit_instruction := instr }
        rootPath fs).2.1 = fs ∧
    (fileSystemTool { action := "edit", path := p, edit_instruction := instr }
        rootPath fs).2.2 = [Effect.readF (normpathAbs (pyJoin rootPath p))] := by
  simp only [fileSystemTool, editAction, fsExists]
  simp [hp, hinstr, hsafe, hfile, hsplit]

/-- Witness for claim C8 at the concrete malformed instruction of the spec. -/
theorem malformed_edit_rejected_witness :
    pySplit "->" "no-arrow-here" = ["no-arrow-here"] ∧
    (fileSystemTool { action := "edit", path := "notes/a.md",
                      edit_instruction := "no-arrow-here" }
      "/ws/w1" demoFs).2.1 = demoFs :=
  ⟨by decide,
   (malformed_edit_rejected "/ws/w1" "notes/a.md" "no-arrow-here" "foo baz foo"
     demoFs (by decide) (by decide) (by decide) (by decide) (by decide)).2.1⟩

/-- Claim C9: an edit with a well-formed instruction (old arrow new, both
sides free of surrounding whitespace) on an existing file succeeds and stores
the content with every occurrence of the old text replaced by the new text. -/
theorem wellformed_edit_replaces_all (rootPath p instr o n orig : String)
    (fs : FileSys) (hinstr : instr ≠ "")
    (hsplit : pySplit "->" instr = [o, n]) (ho : pyStrip o = o)
    (hn : pyStrip n = n) (hp : p ≠ "")
    (hsafe : pyStartsWith (normpathAbs (pyJoin rootPath p)) rootPath = true)
    (hfile : fsLookup fs (normpathAbs (pyJoin rootPath p)) = some orig) :
    (fileSystemTool { action := "edit", path := p, edit_instruction := instr }
        rootPath fs).1.success = true ∧
    fsLookup (fileSystemTool { action := "edit", path := p,
                               edit_instruction := instr } rootPath fs).2.1
      (normpathAbs (pyJoin rootPath p)) = some (pyReplace orig o n) := by
  simp only [fileSystemTool, editAction, fsExists]
  simp [hp, hinstr, hsafe, hfile, hsplit, ho, hn, fsLookup_fsWrite_self]

/-- Witness for claim C9 at the concrete example of the spec: the instruction
foo arrow bar on a file containing foo baz foo yields bar baz bar. -/
theorem wellformed_edit_replaces_all_witness :
    pySplit "->" "foo->bar" = ["foo", "bar"] ∧
    fsLookup (fileSystemTool { action := "edit", path := "notes/a.md",
                               edit_instruction := "foo->bar" }
        "/ws/w1" demoFs).2.1
      (normpathAbs (pyJoin "/ws/w1" "notes/a.md")) = some "bar baz bar" := by
  have h := wellformed_edit_replaces_all "/ws/w1" "notes/a.md" "foo->bar" "foo"
    "bar" "foo baz foo" demoFs (by decide) (by decide) (by decide) (by decide)
    (by decide) (by decide) (by decide)
  exact ⟨by decide, h.2.trans (by decide)⟩

/-- Claim C10: a failed compression attempt returns one of the two fixed
non-empty sentinel strings; once stored, the trigger is permanently false
whatever the later token count, so the single compression opportunity is
consumed; and the sentinel is injected verbatim, after the fixed header, as
the lesson-context slot of every subsequent teaching-turn system prompt. -/
theorem compression_failure_sentinel (resp : CompressResponse)
    (h : resp.isFailure = true) :
    (compress_context resp =
        "[Context compression failed - using recent messages only]" ∨
     compress_context resp = "[Context compression error]") ∧
    compress_context resp ≠ "" ∧
    (∀ (ws : Workspace) (resp2 : CompressResponse) (newCount : Nat)
        (mc : Nat) (sp ag re ftr : String),
      (compressionStep { ws with compressed_context := compress_context resp,
                                 token_count := newCount } resp2).2 = false ∧
      buildLessonContext { ws with compressed_context := compress_context resp } =
        "[LESSON_CONTEXT - Compressed]\n" ++ compress_context resp ∧
      ("lesson_context",
        "[LESSON_CONTEXT - Compressed]\n" ++ compress_context resp) ∈
        teachingPromptSlots { ws with compressed_context := compress_context resp }
          mc sp ag re ftr) := by
  have hne : compress_context resp ≠ "" := by
    cases resp with
    | okResp c => simp [CompressResponse.isFailure] at h
    | httpError s => simp [compress_context]
    | exn m => simp [compress_context]
  refine ⟨?_, hne, ?_⟩
  · cases resp with
    | okResp c => simp [CompressResponse.isFailure] at h
    | httpError s => exact Or.inl rfl
    | exn m => exact Or.inr rfl
  · intro ws resp2 newCount mc sp ag re ftr
    refine ⟨?_, ?_, ?_⟩
    · unfold compressionStep
      rw [if_neg]
      intro hcon
      exact hne hcon.2
    · unfold buildLessonContext
      rw [if_neg hne]
    · have hb : buildLessonContext
          { ws with compressed_context := compress_context resp } =
          "[LESSON_CONTEXT - Compressed]\n" ++ compress_context resp := by
        unfold buildLessonContext
        rw [if_neg hne]
      simp [teachingPromptSlots, hb]

/-- Witness for claim C10 at a concrete non-200 compression response. -/
theorem compression_failure_sentinel_witness :
    (CompressResponse.httpError 500).isFailure = true ∧
    compress_context (CompressResponse.httpError 500) ≠ "" :=
  ⟨by decide,
   (compression_failure_sentinel (CompressResponse.httpError 500) (by decide)).2.1⟩

end LearnApp

